import Mathlib

/-!
Verification of the job-orchestration core of the UGC avatar platform.

The development shallowly embeds the parts of the repository the claims
concern: the Celery worker task and its persisted `Video` state machine
(`worker/tasks.py`, `backend/app/db/models.py`), the RunPod serverless
poll loop (`backend/services/gpu_worker.py`), the Replicate poll loop
(`backend/services/replicate_worker.py`), and the Vast.ai marketplace
provisioner (`backend/services/vastai_worker.py`).

Modelling conventions: byte payloads (base64 strings, downloaded video
content) are opaque `String`s; wall-clock time is integer seconds and
each `time.sleep(n)` advances a modelled clock by `n`; every network
call is an oracle drawn from an explicit environment record, with
`Except.error` standing for a raised `requests` exception; database rows
are looked up through a map from primary key to row.
-/

namespace UGC

/-- Python truthiness of an optional string (`None` and `""` are falsy). -/
def truthyStr (s : Option String) : Bool :=
  match s with
  | none => false
  | some x => !(x == "")

/-- Python truthiness of an optional integer (`None` and `0` are falsy). -/
def truthyNat (n : Option ℕ) : Bool :=
  match n with
  | none => false
  | some x => !(x == 0)

/-! Worker task and `Video` state machine (`worker/tasks.py`,
`backend/app/db/models.py`). -/

/-- Video lifecycle statuses (`backend/app/db/models.py`, `VideoStatus`). -/
inductive VideoStatus where
  | pending
  | processing
  | completed
  | failed
  | cancelled
deriving DecidableEq, Repr

/-- Fields of the persisted `Video` row touched by the worker task
(`backend/app/db/models.py`, class `Video`). Timestamps are modelled as
integer seconds; `processing_time_seconds` as an integer difference. -/
structure Video where
  status : VideoStatus
  error_message : Option String
  output_video_url : Option String
  duration : Option ℚ
  processing_started_at : Option ℤ
  processing_completed_at : Option ℤ
  processing_time_seconds : Option ℤ
deriving DecidableEq, Repr

/-- Databases are maps from primary key to row. -/
def Db : Type := ℕ → Option Video

/-- Commit of one row (`db.commit()` after mutating the queried object). -/
def dbSet (db : Db) (i : ℕ) (v : Video) : Db :=
  fun j => if j = i then some v else db j

/-- Successful result of the download/generate/upload pipeline that runs
between the two status commits of `generate_video_task`
(`worker/tasks.py` lines 78-138). -/
structure PipelineOut where
  output_url : String
  duration : ℚ
deriving DecidableEq, Repr

/-- Environment of one task run: the two `datetime.utcnow()` readings and
the outcome of the storage/generation/upload pipeline, where
`Except.error` carries `str(e)` of the exception raised. -/
structure TaskEnv where
  startTime : ℤ
  endTime : ℤ
  pipeline : Except String PipelineOut

/-- Status write at task start (`worker/tasks.py` lines 72-74):
`video.status = PROCESSING; video.processing_started_at = utcnow()`,
performed unconditionally on whatever row was found. -/
def applyProcessing (v : Video) (t : ℤ) : Video :=
  { v with status := .processing, processing_started_at := some t }

/-- Terminal success write (`worker/tasks.py` lines 141-145):
`processing_time_seconds` is computed from the row's own
`processing_completed_at` and `processing_started_at` fields. -/
def applyCompleted (v : Video) (t : ℤ) (p : PipelineOut) : Video :=
  { v with status := .completed
         , output_video_url := some p.output_url
         , duration := some p.duration
         , processing_completed_at := some t
         , processing_time_seconds := some (t - v.processing_started_at.getD 0) }

/-- Failure write shared by the in-task `except` handler
(`worker/tasks.py` lines 166-168) and `VideoGenerationTask.on_failure`
(lines 46-50): `video.status = FAILED; video.error_message = str(exc)`,
performed unconditionally on whatever row was found. -/
def applyFailureWrite (v : Video) (msg : String) : Video :=
  { v with status := .failed, error_message := some msg }

/-- Exception kinds a task run can terminate with. -/
inductive TaskErr where
  | attributeError
  | pipelineError
deriving DecidableEq, Repr

/-- Result of one task invocation (normal return or uncaught exception). -/
inductive TaskResult where
  | ok (p : PipelineOut)
  | error (kind : TaskErr) (msg : String)
deriving DecidableEq, Repr

/-- Body of `generate_video_task` (`worker/tasks.py` lines 63-170). When
the row is missing, the body raises `ValueError`, and the `except`
handler then evaluates `video.status = FAILED` with `video = None`,
which raises `AttributeError` before `db.commit()` is reached, so no
write is committed on that path. When the pipeline raises, the handler
commits the failure write and re-raises. -/
def taskBody (env : TaskEnv) (db : Db) (vid : ℕ) : Db × TaskResult :=
  match db vid with
  | none => (db, .error .attributeError "NoneType object has no attribute status")
  | some v =>
    let v1 := applyProcessing v env.startTime
    let db1 := dbSet db vid v1
    match env.pipeline with
    | .ok p => (dbSet db1 vid (applyCompleted v1 env.endTime p), .ok p)
    | .error msg =>
        (dbSet db1 vid (applyFailureWrite v1 msg), .error .pipelineError msg)

/-- Celery failure hook `VideoGenerationTask.on_failure`
(`worker/tasks.py` lines 41-52): re-query the row by id; if present,
apply the failure write and commit; if absent (`if video:` is false), do
nothing. -/
def onFailureHook (db : Db) (vid : ℕ) (msg : String) : Db :=
  match db vid with
  | none => db
  | some v => dbSet db vid (applyFailureWrite v msg)

/-- One task invocation as the queue sees it: run the body; on an
uncaught exception, Celery invokes `on_failure` with `(video_id, exc)`. -/
def runTask (env : TaskEnv) (db : Db) (vid : ℕ) : Db × TaskResult :=
  match taskBody env db vid with
  | (db1, .ok p) => (db1, .ok p)
  | (db1, .error k msg) => (onFailureHook db1 vid msg, .error k msg)

/-! RunPod serverless poll loop (`backend/services/gpu_worker.py`). -/

/-- Overall poll budget in seconds (`self.timeout = 300`). -/
def gpuTimeout : ℕ := 300

/-- Sleep after a non-terminal status (`time.sleep(2)`, line 148/153). -/
def gpuPollInterval : ℕ := 2

/-- Sleep after a network-level poll error (`time.sleep(5)`, line 157). -/
def gpuErrorBackoff : ℕ := 5

/-- Payload found under the `output` key of a RunPod reply: the handler's
own status/error plus the base64 video and its duration. Absent JSON
keys are `none`. -/
structure GpuOutput where
  statusField : Option String
  error : Option String
  video : Option String
  duration : Option ℚ
deriving DecidableEq, Repr

/-- Body of one `/status/{job_id}` reply. -/
structure GpuReply where
  status : Option String
  output : Option GpuOutput
  error : Option String
deriving DecidableEq, Repr

/-- Outcome of one status request: a raised `requests` exception
(connection error or non-2xx via `raise_for_status`) or a decoded
reply. -/
inductive GpuCheck where
  | netError
  | reply (r : GpuReply)
deriving DecidableEq, Repr

/-- Terminal result of `_poll_job`: the returned dict, or the exception
the loop raises (`ValueError` for generation failure / job failure /
missing video, `TimeoutError` carrying the job id). -/
inductive GpuExit where
  | success (video : String) (duration : ℚ)
  | generationFailed (msg : String)
  | jobFailed (msg : String)
  | noVideo
  | timedOut (jobId : String)
deriving DecidableEq, Repr

/-- Value of `status_data.get("output", {})` when `output` is absent. -/
def gpuNoOutput : GpuOutput :=
  { statusField := none, error := none, video := none, duration := none }

/-- Poll loop of `GPUWorkerService._poll_job` (lines 109-159). `checks k`
is the outcome of the k-th status request; `elapsed` is the modelled
monotonic clock (each sleep advances it); `cnt` counts status requests.
Returns the exit, the total number of status checks, and the elapsed
time at exit. Base64 decoding is modelled as the identity on the opaque
payload string. -/
def pollAux (checks : ℕ → GpuCheck) (jobId : String) (k elapsed cnt : ℕ) :
    GpuExit × ℕ × ℕ :=
  if _h : elapsed < gpuTimeout then
    match checks k with
    | .netError => pollAux checks jobId (k + 1) (elapsed + gpuErrorBackoff) (cnt + 1)
    | .reply r =>
      if r.status = some "COMPLETED" then
        if (r.output.getD gpuNoOutput).statusField = some "failed" then
          (.generationFailed ((r.output.getD gpuNoOutput).error.getD "None"),
           cnt + 1, elapsed)
        else if truthyStr (r.output.getD gpuNoOutput).video then
          (.success ((r.output.getD gpuNoOutput).video.getD "")
             ((r.output.getD gpuNoOutput).duration.getD 0), cnt + 1, elapsed)
        else (.noVideo, cnt + 1, elapsed)
      else if r.status = some "FAILED" then
        (.jobFailed (r.error.getD "Unknown error"), cnt + 1, elapsed)
      else pollAux checks jobId (k + 1) (elapsed + gpuPollInterval) (cnt + 1)
  else (.timedOut jobId, cnt, elapsed)
termination_by gpuTimeout - elapsed
decreasing_by
  all_goals simp only [gpuTimeout, gpuPollInterval, gpuErrorBackoff] at *
  all_goals omega

/-- Entry point of `_poll_job`: the clock starts at the first check. -/
def pollJob (checks : ℕ → GpuCheck) (jobId : String) : GpuExit × ℕ × ℕ :=
  pollAux checks jobId 0 0 0

/-- Property of a check being a non-terminal queue status. -/
def isQueued (c : GpuCheck) : Prop :=
  ∃ r, c = .reply r ∧
    (r.status = some "IN_QUEUE" ∨ r.status = some "IN_PROGRESS")

/-- RunPod credentials as read from settings (absent or a string, where
the empty string is falsy). -/
structure GpuCreds where
  runpod_api_key : Option String
  runpod_endpoint_id : Option String

/-- Property `is_configured` of `GPUWorkerService` (lines 27-30):
`bool(self.runpod_api_key and self.runpod_endpoint_id)`. -/
def gpuIsConfigured (c : GpuCreds) : Bool :=
  truthyStr c.runpod_api_key && truthyStr c.runpod_endpoint_id

/-- Environment of one `generate_video` call on the RunPod service: the
submit POST result (the payload is the `id` field of the response) and
the poll replies. -/
structure GpuSubmitEnv where
  submitResult : Except Unit (Option String)
  checks : ℕ → GpuCheck

/-- Outcome of `GPUWorkerService.generate_video` (lines 38-107). -/
inductive GpuRunExit where
  | notConfigured
  | submitNetError
  | noJobId
  | polled (e : GpuExit)
deriving DecidableEq, Repr

/-- Embedding of `GPUWorkerService.generate_video` (lines 38-107):
configuration check before anything else, one submit call, check of the
returned job id, then the poll loop. The second component counts network
requests made (the submit POST plus one per status check). -/
def gpuGenerateVideo (env : GpuSubmitEnv) (c : GpuCreds) : GpuRunExit × ℕ :=
  if gpuIsConfigured c then
    match env.submitResult with
    | .error _ => (.submitNetError, 1)
    | .ok jid =>
      if truthyStr jid then
        let res := pollJob env.checks (jid.getD "")
        (.polled res.1, 1 + res.2.1)
      else (.noJobId, 1)
  else (.notConfigured, 0)

/-! Replicate poll loop (`backend/services/replicate_worker.py`). -/

/-- Overall poll budget in seconds (`self.timeout = 300`). -/
def repTimeout : ℕ := 300

/-- Sleep after a non-terminal status (`time.sleep(2)`, line 195/200). -/
def repPollInterval : ℕ := 2

/-- Sleep after a network-level poll error (`time.sleep(5)`, line 204). -/
def repErrorBackoff : ℕ := 5

/-- Shape of the `output` field of a Replicate prediction, as
discriminated by the `isinstance` chain (lines 168-176): a string URL, a
dict (with optional `video` and `output` keys), a list of URLs, or
anything else (including JSON null). -/
inductive ROut where
  | rstr (s : String)
  | rdict (video : Option String) (outputKey : Option String)
  | rlist (l : List String)
  | rnull
deriving DecidableEq, Repr

/-- Body of one prediction-status reply. -/
structure RepReply where
  status : Option String
  output : ROut
  error : Option String
deriving DecidableEq, Repr

/-- Outcome of one prediction-status request. -/
inductive RepCheck where
  | netError
  | reply (r : RepReply)
deriving DecidableEq, Repr

/-- Python `a or b` over optional strings (`None` and `""` are falsy). -/
def pyOr (a b : Option String) : Option String :=
  if truthyStr a then a else b

/-- Result of the `isinstance` chain computing `video_url` (lines
168-176): a URL value to fetch, the `None` URL (a dict lacking both
keys, so `requests.get(None)` raises `MissingSchema`, which is a
`RequestException`), or the `else` branch raising
`ValueError("Unexpected output format")`. -/
inductive UrlClass where
  | url (u : String)
  | noUrl
  | badFormat
deriving DecidableEq, Repr

/-- Discriminating `video_url` from the output shape. -/
def classifyOutput : ROut → UrlClass
  | .rstr s => .url s
  | .rdict v o =>
      match pyOr v o with
      | some u => .url u
      | none => .noUrl
  | .rlist (h :: _) => .url h
  | .rlist [] => .badFormat
  | .rnull => .badFormat

/-- Environment of one `_poll_prediction` run: the poll replies and the
video fetch oracle (`requests.get(video_url)` plus `raise_for_status`,
where `Except.error` is a raised `RequestException`; fetching the empty
URL raises `MissingSchema` in `requests`). -/
structure RepEnv where
  checks : ℕ → RepCheck
  fetch : String → Except Unit String

/-- Terminal result of `_poll_prediction`. -/
inductive RepExit where
  | rSuccess (video : String) (url : String)
  | rFailed (msg : String)
  | rMalformed
  | rTimedOut (predictionId : String)
deriving DecidableEq, Repr

/-- Poll loop of `ReplicateWorkerService._poll_prediction` (lines
147-206). A failed fetch of the output URL — including the `None` URL
produced by a dict output lacking both keys — raises a
`RequestException`, which the handler catches; the loop then sleeps the
error backoff and retries. -/
def rPollAux (env : RepEnv) (pid : String) (k elapsed cnt : ℕ) :
    RepExit × ℕ × ℕ :=
  if _h : elapsed < repTimeout then
    match env.checks k with
    | .netError => rPollAux env pid (k + 1) (elapsed + repErrorBackoff) (cnt + 1)
    | .reply r =>
      if r.status = some "succeeded" then
        match classifyOutput r.output with
        | .url u =>
          match env.fetch u with
          | .ok bytes => (.rSuccess bytes u, cnt + 1, elapsed)
          | .error _ => rPollAux env pid (k + 1) (elapsed + repErrorBackoff) (cnt + 1)
        | .noUrl => rPollAux env pid (k + 1) (elapsed + repErrorBackoff) (cnt + 1)
        | .badFormat => (.rMalformed, cnt + 1, elapsed)
      else if r.status = some "failed" then
        (.rFailed (r.error.getD "Unknown error"), cnt + 1, elapsed)
      else rPollAux env pid (k + 1) (elapsed + repPollInterval) (cnt + 1)
  else (.rTimedOut pid, cnt, elapsed)
termination_by repTimeout - elapsed
decreasing_by
  all_goals simp only [repTimeout, repPollInterval, repErrorBackoff] at *
  all_goals omega

/-- Entry point of `_poll_prediction`. -/
def rPoll (env : RepEnv) (pid : String) : RepExit × ℕ × ℕ :=
  rPollAux env pid 0 0 0

/-- Property of a check making the Replicate loop retry: a network error
on the status request, a success status whose URL fetch fails (or whose
URL is `None`), or a non-terminal status. -/
def repRetries (env : RepEnv) (c : RepCheck) : Prop :=
  c = .netError ∨
  (∃ r, c = .reply r ∧ r.status = some "succeeded" ∧
    (classifyOutput r.output = .noUrl ∨
      ∃ u, classifyOutput r.output = .url u ∧ env.fetch u = .error ())) ∨
  (∃ r, c = .reply r ∧ r.status ≠ some "succeeded" ∧ r.status ≠ some "failed")

/-- Property `is_configured` of `ReplicateWorkerService` (lines 40-43):
`bool(self.api_token)`. -/
def repIsConfigured (token : Option String) : Bool := truthyStr token

/-- Environment of one Replicate `generate_video` call: the prediction
POST result (payload the `id` field) and the poll environment. -/
structure RepSubmitEnv where
  submitResult : Except Unit (Option String)
  poll : RepEnv

/-- Outcome of `ReplicateWorkerService.generate_video` (lines 51-145). -/
inductive RepRunExit where
  | notConfigured
  | submitNetError
  | noPredictionId
  | polled (e : RepExit)
deriving DecidableEq, Repr

/-- Embedding of `ReplicateWorkerService.generate_video` (lines 51-145):
configuration check before anything else, one prediction POST, check of
the returned prediction id, then the poll loop. The second component
counts network requests (the POST plus one per status check). -/
def repGenerateVideo (env : RepSubmitEnv) (token : Option String) :
    RepRunExit × ℕ :=
  if repIsConfigured token then
    match env.submitResult with
    | .error _ => (.submitNetError, 1)
    | .ok pidOpt =>
      if truthyStr pidOpt then
        let res := rPoll env.poll (pidOpt.getD "")
        (.polled res.1, 1 + res.2.1)
      else (.noPredictionId, 1)
  else (.notConfigured, 0)

/-! Vast.ai marketplace provisioner (`backend/services/vastai_worker.py`). -/

/-- One marketplace offer, restricted to the fields the service reads. -/
structure Offer where
  id : ℕ
  dph_total : Option ℚ
  gpu_name : String
deriving DecidableEq, Repr

/-- Search query built by `search_offers` (lines 93-106); each field is
the comparison sent to the `bundles` endpoint under the homonymous key
(`gpu_ram` is in MB, hence the 1024 factor). -/
structure VastQuery where
  verified_eq : Bool
  rentable_eq : Bool
  num_gpus_gte : ℕ
  gpu_ram_mb_gte : ℕ
  dph_total_lte : ℚ
  cuda_vers_gte : ℚ
  inet_down_gte : ℚ
  reliability2_gte : ℚ
  gpu_name_eq : Option String
deriving DecidableEq, Repr

/-- Query construction of `search_offers` (lines 93-106); the
`gpu_name` filter is added only when the argument is truthy. -/
def buildQuery (gpu_name : String) (min_gpu_ram num_gpus : ℕ)
    (max_price : ℚ) : VastQuery :=
  { verified_eq := true
  , rentable_eq := true
  , num_gpus_gte := num_gpus
  , gpu_ram_mb_gte := min_gpu_ram * 1024
  , dph_total_lte := max_price
  , cuda_vers_gte := 12
  , inet_down_gte := 100
  , reliability2_gte := 9 / 10
  , gpu_name_eq := if gpu_name = "" then none else some gpu_name }

/-- Sort key of line 114, `x.get("dph_total", float("inf"))`: a missing
price sorts last. -/
def offerKey (o : Offer) : WithTop ℚ :=
  match o.dph_total with
  | none => ⊤
  | some q => (q : WithTop ℚ)

/-- Boolean comparison backing the stable sort by price. -/
def offerLe (a b : Offer) : Bool :=
  match a.dph_total, b.dph_total with
  | none, _ => b.dph_total.isNone
  | some _, none => true
  | some x, some y => decide (x ≤ y)

/-- Client-side post-processing of `search_offers` (lines 113-117): sort
ascending by price (Python's stable sort, embedded as a stable merge
sort) and keep the 10 cheapest. -/
def sortTake (raw : List Offer) : List Offer :=
  (raw.mergeSort offerLe).take 10

/-- Body of one `instances/{id}/` reply (fields read by the readiness
wait). -/
structure InstanceInfo where
  actual_status : String
  ssh_host : Option String
  ssh_port : Option ℕ
deriving DecidableEq, Repr

/-- Environment of one Vast.ai `generate_video` run: the offers the
`bundles` endpoint returns for a query, the `new_contract` field of the
create response, and the per-iteration `get_instance` replies
(`Except.error` is a raised request exception throughout). -/
structure VastEnv where
  offersFor : VastQuery → Except Unit (List Offer)
  createResult : Except Unit (Option ℕ)
  instanceInfo : ℕ → Except Unit InstanceInfo

/-- API requests issued during a run. -/
inductive VastEvent where
  | search (q : VastQuery)
  | create (offerId : ℕ)
  | getInstance
  | destroy (instanceId : ℕ)
deriving DecidableEq, Repr

/-- Result of one `search_offers` call (lines 88-121): the server's
offers for the query, sorted by ascending price, at most 10; a request
error is logged and re-raised. -/
def searchOffers (env : VastEnv) (q : VastQuery) : Except Unit (List Offer) :=
  (env.offersFor q).map sortTake

/-- GPU preference order tried by `generate_video` (line 233). -/
def gpuPreference : List String := ["A100_PCIE", "A100_SXM4", "RTX_4090"]

/-- Offer-search loop of `generate_video` (lines 232-243): try each GPU
name with `min_gpu_ram=24`, `max_price=3.0` (and the default
`num_gpus=1`); a raised search error is swallowed by the bare
`except: continue`; stop at the first non-empty result. -/
def tryGpus (env : VastEnv) : List String → List Offer × List VastEvent
  | [] => ([], [])
  | g :: rest =>
    match searchOffers env (buildQuery g 24 1 3) with
    | .error _ =>
        let r := tryGpus env rest
        (r.1, .search (buildQuery g 24 1 3) :: r.2)
    | .ok l =>
      if l.isEmpty then
        let r := tryGpus env rest
        (r.1, .search (buildQuery g 24 1 3) :: r.2)
      else (l, [.search (buildQuery g 24 1 3)])

/-- Exit of the readiness wait (lines 288-305), carrying the loop's
`ssh_host`/`ssh_port` variables where relevant. -/
inductive ReadyRes where
  | broke (host : String) (port : ℕ)
  | ended (hA : Option String) (pA : Option ℕ)
  | errored
deriving DecidableEq, Repr

/-- Readiness wait of `generate_video` (lines 288-305): poll
`get_instance` every 10 seconds for up to 300 seconds; on a running
instance overwrite the `ssh_host`/`ssh_port` variables and break once
both are truthy; a raised `get_instance` error propagates out of the
loop (`get_instance` re-raises, lines 166-176). The second component
counts `get_instance` requests. -/
def readiness (env : VastEnv) (k elapsed : ℕ) (hA : Option String)
    (pA : Option ℕ) : ReadyRes × ℕ :=
  if _h : elapsed < 300 then
    match env.instanceInfo k with
    | .error _ => (.errored, 1)
    | .ok info =>
      if info.actual_status = "running" then
        if truthyStr info.ssh_host && truthyNat info.ssh_port then
          (.broke (info.ssh_host.getD "") (info.ssh_port.getD 0), 1)
        else
          let r := readiness env (k + 1) (elapsed + 10) info.ssh_host info.ssh_port
          (r.1, r.2 + 1)
      else
        let r := readiness env (k + 1) (elapsed + 10) hA pA
        (r.1, r.2 + 1)
  else (.ended hA pA, 0)
termination_by 300 - elapsed

/-- Exit of `VastAIWorkerService.generate_video` (lines 191-343), one
constructor per raise site (there is no normal return: the generation
step always raises). -/
inductive VastExit where
  | notConfigured
  | noOffers
  | createError
  | createNoId
  | readinessError
  | startupTimeout
  | notImplemented
deriving DecidableEq, Repr

/-- Body of the `try` block of `generate_video` (lines 226-333): search
phase, instance creation, readiness wait, then the SSH generation step,
which always raises `NotImplementedError` (line 328). When the loop ends
with a truthy `ssh_host` but without having broken (truthy host, falsy
port), the `if not ssh_host` guard at line 304 does not fire and control
still reaches the `NotImplementedError`. Returns the outcome, the final
value of the `instance_id` variable, and the API requests made. -/
def vastBody (env : VastEnv) : VastExit × Option ℕ × List VastEvent :=
  match tryGpus env gpuPreference with
  | ([], tr) => (.noOffers, none, tr)
  | (best :: _, tr) =>
    match env.createResult with
    | .error _ => (.createError, none, tr ++ [.create best.id])
    | .ok idOpt =>
      if truthyNat idOpt then
        match readiness env 0 0 none none with
        | (.errored, c) =>
            (.readinessError, idOpt,
             tr ++ [.create best.id] ++ List.replicate c .getInstance)
        | (.broke _ _, c) =>
            (.notImplemented, idOpt,
             tr ++ [.create best.id] ++ List.replicate c .getInstance)
        | (.ended hA _, c) =>
            if truthyStr hA then
              (.notImplemented, idOpt,
               tr ++ [.create best.id] ++ List.replicate c .getInstance)
            else
              (.startupTimeout, idOpt,
               tr ++ [.create best.id] ++ List.replicate c .getInstance)
      else (.createNoId, idOpt, tr ++ [.create best.id])

/-- Property `is_configured` of `VastAIWorkerService` (lines 34-37):
`bool(self.api_key)`. -/
def vastIsConfigured (api_key : Option String) : Bool := truthyStr api_key

/-- Embedding of `generate_video` with its `finally` block (lines
221-343): fail fast when unconfigured; run the body; then destroy the
instance iff the `instance_id` variable is truthy — `destroy_instance`
itself never raises (lines 178-189 catch everything and return False). -/
def vastGenerateVideo (env : VastEnv) (api_key : Option String) :
    VastExit × List VastEvent :=
  if vastIsConfigured api_key then
    match vastBody env with
    | (out, iid, tr) =>
      if truthyNat iid then (out, tr ++ [.destroy (iid.getD 0)]) else (out, tr)
  else (.notConfigured, [])

/-- Number of destroy requests in a trace. -/
def destroyCount (tr : List VastEvent) : ℕ :=
  tr.countP (fun e => match e with | .destroy _ => true | _ => false)

/-! Concrete inputs used by counterexamples and witnesses. -/

/-- A record already in the terminal status `completed`. -/
def vDone : Video :=
  { status := .completed, error_message := none, output_video_url := some "u"
  , duration := some 1, processing_started_at := some 0
  , processing_completed_at := some 9, processing_time_seconds := some 9 }

/-- A freshly created pending record. -/
def vPending : Video :=
  { status := .pending, error_message := none, output_video_url := none
  , duration := none, processing_started_at := none
  , processing_completed_at := none, processing_time_seconds := none }

/-- Database holding only `vDone` at id 1. -/
def dbDone : Db := fun j => if j = 1 then some vDone else none

/-- Database holding only `vPending` at id 1. -/
def dbPending : Db := fun j => if j = 1 then some vPending else none

/-- Queued reply used in concrete poll scenarios. -/
def replyInProgress : GpuReply :=
  { status := some "IN_PROGRESS", output := none, error := none }

/-- Queued reply used in concrete poll scenarios. -/
def replyInQueue : GpuReply :=
  { status := some "IN_QUEUE", output := none, error := none }

/-- Completed reply with a valid video payload. -/
def replyGood : GpuReply :=
  { status := some "COMPLETED"
  , output := some { statusField := none, error := none
                   , video := some "AAAA", duration := some 3 }
  , error := none }

/-- Check stream: IN_PROGRESS, IN_QUEUE, then COMPLETED with video. -/
def checksGood : ℕ → GpuCheck :=
  fun i => if i = 0 then .reply replyInProgress
           else if i = 1 then .reply replyInQueue
           else .reply replyGood

/-- Check stream whose every status request raises a network error. -/
def checksNet : ℕ → GpuCheck := fun _ => .netError

/-- Check stream always COMPLETED with an empty `output` object. -/
def checksNoVideo : ℕ → GpuCheck :=
  fun _ => .reply { status := some "COMPLETED", output := none, error := none }

/-- Replicate environment whose every status request raises. -/
def repEnvNet : RepEnv :=
  { checks := fun _ => .netError, fetch := fun _ => .error () }

/-- Replicate environment: the prediction always reports `succeeded`
with the empty string as its output, and fetching the empty URL raises
(`requests` rejects the URL `""` with `MissingSchema`). -/
def repEnvEmptyStr : RepEnv :=
  { checks := fun _ =>
      .reply { status := some "succeeded", output := .rstr "", error := none }
  , fetch := fun _ => .error () }

/-- Replicate environment: the prediction reports `succeeded` with a
null output. -/
def repEnvNull : RepEnv :=
  { checks := fun _ =>
      .reply { status := some "succeeded", output := .rnull, error := none }
  , fetch := fun _ => .error () }

/-- A single cheap offer. -/
def offerW : Offer := { id := 7, dph_total := some 1, gpu_name := "A100_PCIE" }

/-- Vast.ai environment: one offer, instance creation succeeds with id 5,
every `get_instance` request raises. -/
def vastEnvW : VastEnv :=
  { offersFor := fun _ => .ok [offerW]
  , createResult := .ok (some 5)
  , instanceInfo := fun _ => .error () }

/-- Vast.ai environment: the offer search finds nothing for any GPU. -/
def vastEnvEmpty : VastEnv :=
  { offersFor := fun _ => .ok []
  , createResult := .error ()
  , instanceInfo := fun _ => .error () }

/-- Vast.ai environment: one offer, creation succeeds with id 5, and the
instance is immediately running with SSH coordinates. -/
def vastEnvReady : VastEnv :=
  { offersFor := fun _ => .ok [offerW]
  , createResult := .ok (some 5)
  , instanceInfo := fun _ =>
      .ok { actual_status := "running", ssh_host := some "h", ssh_port := some 22 } }

/-! Theorems. -/

/-- Lookup of a row just committed. -/
theorem dbSet_self (db : Db) (i : ℕ) (v : Video) : dbSet db i v i = some v := by
  simp [dbSet]

/-- C1 counterexample: a record already in the terminal status
`completed` is not left unchanged by further transition attempts — the
task body's processing write moves it to `processing`, and a failing run
over it commits `failed`; the terminal set is not absorbing. -/
theorem c1_counterexample :
    vDone.status = VideoStatus.completed ∧
    (applyProcessing vDone 3).status = VideoStatus.processing ∧
    (applyProcessing vDone 3).status ≠ vDone.status ∧
    (((runTask ⟨5, 9, Except.error "boom"⟩ dbDone 1).1 1).map Video.status
      = some VideoStatus.failed) := by
  refine ⟨rfl, rfl, by decide, rfl⟩

/-- C1 (amended): the worker's status writes are unconditional — for
every record, the task-start write sets `processing` and the failure
write sets `failed`, regardless of the previous (possibly terminal)
status; the failure write is idempotent when repeated with the same
message, and a failing run over any existing record ends with exactly
the doubly-applied (hence singly-applied) failure write committed. -/
theorem c1_amended_unconditional_writes (v : Video) (t : ℤ) (m : String) :
    (applyProcessing v t).status = VideoStatus.processing ∧
    (applyFailureWrite v m).status = VideoStatus.failed ∧
    applyFailureWrite (applyFailureWrite v m) m = applyFailureWrite v m ∧
    (∀ (env : TaskEnv) (db : Db) (vid : ℕ), db vid = some v →
      env.pipeline = .error m →
      (runTask env db vid).1 vid
        = some (applyFailureWrite (applyProcessing v env.startTime) m)) := by
  refine ⟨rfl, rfl, rfl, ?_⟩
  intro env db vid hv hp
  simp only [runTask, taskBody, hv, hp]
  simp [onFailureHook, dbSet_self, applyFailureWrite]

/-- C1 amended claim at a concrete input. -/
theorem c1_amended_unconditional_writes_witness :
    (runTask ⟨5, 9, Except.error "boom"⟩ dbPending 1).1 1
      = some (applyFailureWrite (applyProcessing vPending 5) "boom") :=
  (c1_amended_unconditional_writes vPending 5 "boom").2.2.2
    ⟨5, 9, Except.error "boom"⟩ dbPending 1 rfl rfl

/-- C4 counterexample: a run that fails (pipeline exception) moves the
record into the terminal status `failed`, yet neither
`processing_completed_at` nor `processing_time_seconds` is set on that
transition, contradicting the claim that both are set at every
transition into a terminal state. -/
theorem c4_counterexample :
    (((runTask ⟨5, 9, Except.error "boom"⟩ dbPending 1).1 1).map Video.status
      = some VideoStatus.failed) ∧
    (((runTask ⟨5, 9, Except.error "boom"⟩ dbPending 1).1 1).map
      Video.processing_completed_at = some none) ∧
    (((runTask ⟨5, 9, Except.error "boom"⟩ dbPending 1).1 1).map
      Video.processing_time_seconds = some none) := by
  refine ⟨rfl, rfl, rfl⟩

/-- C4 (amended): only the transition into `completed` sets
`processing_completed_at` and `processing_time_seconds` (each once, with
the duration equal to completion minus start); the transition into
`failed` sets only status and error message and leaves both timing
fields at their previous values. -/
theorem c4_amended_timing_fields (env : TaskEnv) (db : Db) (vid : ℕ)
    (v : Video) (p : PipelineOut) (m : String) (hv : db vid = some v) :
    (env.pipeline = .ok p →
      (runTask env db vid).1 vid
          = some (applyCompleted (applyProcessing v env.startTime) env.endTime p) ∧
      (applyCompleted (applyProcessing v env.startTime) env.endTime p).processing_completed_at
          = some env.endTime ∧
      (applyCompleted (applyProcessing v env.startTime) env.endTime p).processing_time_seconds
          = some (env.endTime - env.startTime)) ∧
    (env.pipeline = .error m →
      ((runTask env db vid).1 vid).map Video.status = some VideoStatus.failed ∧
      ((runTask env db vid).1 vid).map Video.processing_completed_at
          = some v.processing_completed_at ∧
      ((runTask env db vid).1 vid).map Video.processing_time_seconds
          = some v.processing_time_seconds) := by
  constructor
  · intro hp
    refine ⟨?_, rfl, ?_⟩
    · simp only [runTask, taskBody, hv, hp]
      simp [dbSet_self]
    · simp [applyCompleted, applyProcessing]
  · intro hp
    simp only [runTask, taskBody, hv, hp]
    simp [onFailureHook, dbSet_self, applyFailureWrite, applyProcessing]

/-- C4 amended claim at concrete inputs: one succeeding run and one
failing run. -/
theorem c4_amended_timing_fields_witness :
    ((runTask ⟨5, 9, Except.ok ⟨"out", 2⟩⟩ dbPending 1).1 1
        = some (applyCompleted (applyProcessing vPending 5) 9 ⟨"out", 2⟩) ∧
      (applyCompleted (applyProcessing vPending 5) 9 ⟨"out", 2⟩).processing_time_seconds
        = some 4) ∧
    ((runTask ⟨5, 9, Except.error "boom"⟩ dbPending 1).1 1).map
        Video.processing_completed_at = some none := by
  have hok := (c4_amended_timing_fields ⟨5, 9, Except.ok ⟨"out", 2⟩⟩ dbPending 1
    vPending ⟨"out", 2⟩ "boom" rfl).1 rfl
  have herr := (c4_amended_timing_fields ⟨5, 9, Except.error "boom"⟩ dbPending 1
    vPending ⟨"out", 2⟩ "boom" rfl).2 rfl
  refine ⟨⟨hok.1, ?_⟩, ?_⟩
  · rw [hok.2.2]; decide
  · rw [herr.2.1]; rfl

/-- C10: when no row with the given id exists, the task raises (the
handler's attribute access on `None` aborts before any commit) and the
failure hook finds no row, so the database is left completely
unchanged. -/
theorem c10_notfound_leaves_db_unchanged (env : TaskEnv) (db : Db) (vid : ℕ)
    (h : db vid = none) :
    runTask env db vid
      = (db, .error .attributeError "NoneType object has no attribute status") := by
  simp only [runTask, taskBody, onFailureHook, h]

/-- C10 at a concrete input: the empty database is returned as is. -/
theorem c10_notfound_leaves_db_unchanged_witness :
    runTask ⟨0, 0, Except.error "e"⟩ (fun _ => none) 1
      = ((fun _ => none : Db),
         .error .attributeError "NoneType object has no attribute status") :=
  c10_notfound_leaves_db_unchanged ⟨0, 0, Except.error "e"⟩ (fun _ => none) 1 rfl

/-- Every iteration of a RunPod poll loop whose checks always raise
network errors ends in the timeout exit. -/
theorem pollAux_allNet (checks : ℕ → GpuCheck) (jobId : String)
    (hc : ∀ k, checks k = .netError) :
    ∀ (n elapsed k cnt : ℕ), gpuTimeout ≤ elapsed + n →
      (pollAux checks jobId k elapsed cnt).1 = .timedOut jobId := by
  intro n
  induction n with
  | zero =>
    intro elapsed k cnt hle
    rw [pollAux, dif_neg (by omega)]
  | succ n ih =>
    intro elapsed k cnt hle
    by_cases h : elapsed < gpuTimeout
    · rw [pollAux, dif_pos h, hc k]
      exact ih (elapsed + gpuErrorBackoff) (k + 1) (cnt + 1)
        (by simp only [gpuErrorBackoff]; omega)
    · rw [pollAux, dif_neg h]

/-- After N queued replies followed by a valid COMPLETED reply, the
RunPod loop returns success with exactly N+1 checks, having slept the
poll interval between consecutive checks. -/
theorem pollAux_progress (checks : ℕ → GpuCheck) (jobId : String)
    (r : GpuReply) (out : GpuOutput) (v : String)
    (hs : r.status = some "COMPLETED") (ho : r.output = some out)
    (hnf : out.statusField ≠ some "failed") (hv : out.video = some v)
    (hne : v ≠ "") :
    ∀ (N k elapsed cnt : ℕ),
      (∀ i, i < N → isQueued (checks (k + i))) →
      checks (k + N) = .reply r →
      elapsed + gpuPollInterval * N < gpuTimeout →
      pollAux checks jobId k elapsed cnt
        = (.success v (out.duration.getD 0), cnt + N + 1,
           elapsed + gpuPollInterval * N) := by
  intro N
  induction N with
  | zero =>
    intro k elapsed cnt _ hr hT
    simp only [Nat.mul_zero, Nat.add_zero] at hT ⊢
    rw [pollAux, dif_pos hT]
    rw [show k + 0 = k from rfl] at hr
    rw [hr]
    simp [hs, ho, hnf, hv, truthyStr, hne]
  | succ N ih =>
    intro k elapsed cnt hq hr hT
    have h0 : isQueued (checks k) := by
      have := hq 0 (Nat.succ_pos N)
      simpa using this
    obtain ⟨r0, hr0, hst⟩ := h0
    have hlt : elapsed < gpuTimeout := by
      have : 0 ≤ gpuPollInterval * (N + 1) := Nat.zero_le _
      omega
    rw [pollAux, dif_pos hlt, hr0]
    have hnc : ¬ (r0.status = some "COMPLETED") := by
      rcases hst with h1 | h1 <;> rw [h1] <;> decide
    have hnfb : ¬ (r0.status = some "FAILED") := by
      rcases hst with h1 | h1 <;> rw [h1] <;> decide
    simp only [if_neg hnc, if_neg hnfb]
    have step := ih (k + 1) (elapsed + gpuPollInterval) (cnt + 1)
      (by
        intro i hi
        have : k + 1 + i = k + (i + 1) := by omega
        rw [this]
        exact hq (i + 1) (by omega))
      (by
        have : k + 1 + N = k + (N + 1) := by omega
        rw [this]; exact hr)
      (by simp only [gpuPollInterval] at hT ⊢; omega)
    rw [step]
    simp only [Prod.mk.injEq, gpuPollInterval]
    refine ⟨trivial, by omega, by omega⟩

/-- C5: if `check_status` reports a queued status (IN_QUEUE or
IN_PROGRESS) N times and then COMPLETED with a valid video payload, the
poll loop performs exactly N+1 status checks, sleeping the poll interval
between checks (the clock at return is N times the poll interval), and
returns the success before the overall timeout whenever
`N * poll_interval < overall_timeout`. -/
theorem c5_poll_counts_checks (checks : ℕ → GpuCheck) (jobId : String)
    (r : GpuReply) (out : GpuOutput) (v : String) (N : ℕ)
    (hs : r.status = some "COMPLETED") (ho : r.output = some out)
    (hnf : out.statusField ≠ some "failed") (hv : out.video = some v)
    (hne : v ≠ "")
    (hq : ∀ i, i < N → isQueued (checks i))
    (hr : checks N = .reply r)
    (hT : gpuPollInterval * N < gpuTimeout) :
    pollJob checks jobId
      = (.success v (out.duration.getD 0), N + 1, gpuPollInterval * N) ∧
    (pollJob checks jobId).2.2 < gpuTimeout := by
  have main := pollAux_progress checks jobId r out v hs ho hnf hv hne N 0 0 0
    (by intro i hi; simpa using hq i hi) (by simpa using hr)
    (by omega)
  simp only [Nat.zero_add] at main
  have h2 : pollJob checks jobId
      = (.success v (out.duration.getD 0), N + 1, gpuPollInterval * N) := main
  exact ⟨h2, by rw [h2]; exact hT⟩

/-- C5 at a concrete input: two queued replies then a valid completion
give exactly three checks, at twice the poll interval on the clock. -/
theorem c5_poll_counts_checks_witness :
    pollJob checksGood "job-1"
      = (.success "AAAA" ((some (3 : ℚ)).getD 0), 2 + 1, gpuPollInterval * 2) ∧
    (pollJob checksGood "job-1").2.2 < gpuTimeout := by
  have := c5_poll_counts_checks checksGood "job-1" replyGood
    { statusField := none, error := none, video := some "AAAA", duration := some 3 }
    "AAAA" 2 rfl rfl (by decide) rfl (by decide)
    (by
      intro i hi
      interval_cases i
      · exact ⟨replyInProgress, rfl, Or.inr rfl⟩
      · exact ⟨replyInQueue, rfl, Or.inl rfl⟩)
    rfl (by decide)
  exact this

/-- Every iteration of a Replicate poll loop all of whose checks lead to
a retry ends in the timeout exit. -/
theorem rPollAux_allRetry (env : RepEnv) (pid : String)
    (hc : ∀ k, repRetries env (env.checks k)) :
    ∀ (n elapsed k cnt : ℕ), repTimeout ≤ elapsed + n →
      (rPollAux env pid k elapsed cnt).1 = .rTimedOut pid := by
  intro n
  induction n with
  | zero =>
    intro elapsed k cnt hle
    rw [rPollAux, dif_neg (by omega)]
  | succ n ih =>
    intro elapsed k cnt hle
    by_cases h : elapsed < repTimeout
    · rw [rPollAux, dif_pos h]
      rcases hc k with hne | ⟨r, hr, hs, hcl⟩ | ⟨r, hr, hs1, hs2⟩
      · rw [hne]
        exact ih _ (k + 1) (cnt + 1) (by simp only [repErrorBackoff]; omega)
      · rw [hr]
        rcases hcl with hnoUrl | ⟨u, hu, hf⟩
        · simp only [if_pos hs, hnoUrl]
          exact ih _ (k + 1) (cnt + 1) (by simp only [repErrorBackoff]; omega)
        · simp only [if_pos hs, hu, hf]
          exact ih _ (k + 1) (cnt + 1) (by simp only [repErrorBackoff]; omega)
      · rw [hr]
        simp only [if_neg hs1, if_neg hs2]
        exact ih _ (k + 1) (cnt + 1) (by simp only [repPollInterval]; omega)
    · rw [rPollAux, dif_neg h]

/-- C3: when every status check raises a network-level error, both poll
loops sleep the error backoff — strictly greater than the poll
interval — and keep retrying until the overall timeout, then exit with
the poll-timeout error carrying the job handle; the underlying network
error is never the loop's result. -/
theorem c3_net_errors_poll_until_timeout
    (checks : ℕ → GpuCheck) (jobId : String) (env : RepEnv) (pid : String)
    (hg : ∀ k, checks k = .netError) (hr : ∀ k, env.checks k = .netError) :
    gpuPollInterval < gpuErrorBackoff ∧
    repPollInterval < repErrorBackoff ∧
    (pollJob checks jobId).1 = .timedOut jobId ∧
    (rPoll env pid).1 = .rTimedOut pid := by
  refine ⟨by decide, by decide, ?_, ?_⟩
  · exact pollAux_allNet checks jobId hg gpuTimeout 0 0 0 (by omega)
  · exact rPollAux_allRetry env pid (fun k => Or.inl (hr k)) repTimeout 0 0 0 (by omega)

/-- C3 at concrete inputs: constant network failure on both services. -/
theorem c3_net_errors_poll_until_timeout_witness :
    (pollJob checksNet "job-9").1 = .timedOut "job-9" ∧
    (rPoll repEnvNet "p-9").1 = .rTimedOut "p-9" := by
  have := c3_net_errors_poll_until_timeout checksNet "job-9" repEnvNet "p-9"
    (fun _ => rfl) (fun _ => rfl)
  exact ⟨this.2.2.1, this.2.2.2⟩

/-- C6 counterexample: a Replicate prediction that reports the success
tag with the empty string as its output — an empty output under a
success status — is not normalized to the malformed-output failure:
the loop fetches the empty URL, the fetch raises, the exception is
caught as a network error and retried, and the run ends in the
poll-timeout error instead. -/
theorem c6_counterexample :
    (rPoll repEnvEmptyStr "p-1").1 = .rTimedOut "p-1" ∧
    (rPoll repEnvEmptyStr "p-1").1 ≠ .rMalformed := by
  have h : (rPoll repEnvEmptyStr "p-1").1 = .rTimedOut "p-1" := by
    refine rPollAux_allRetry repEnvEmptyStr "p-1" ?_ repTimeout 0 0 0 (by omega)
    intro k
    exact Or.inr (Or.inl ⟨_, rfl, rfl, Or.inr ⟨"", rfl, rfl⟩⟩)
  exact ⟨h, by rw [h]; decide⟩

/-- C6 (amended): under the provider's success tag, the serverless
variant maps a missing or empty video payload to the malformed-output
failure, and the managed-prediction variant maps an output of unexpected
type (null or empty list) to the malformed-output failure; but a success
output that classifies as a falsy URL — an empty string, or a dict
lacking both output keys — is fetched, the failed fetch is caught as a
network error, and the loop retries until the poll timeout instead. -/
theorem c6_amended_malformed_output
    (checks : ℕ → GpuCheck) (jobId : String) (r : GpuReply)
    (env : RepEnv) (pid : String) (rr : RepReply)
    (env2 : RepEnv) (pid2 : String)
    (h0 : checks 0 = .reply r) (hs : r.status = some "COMPLETED")
    (hnf : (r.output.getD gpuNoOutput).statusField ≠ some "failed")
    (hv : truthyStr (r.output.getD gpuNoOutput).video = false)
    (h0r : env.checks 0 = .reply rr) (hsr : rr.status = some "succeeded")
    (hbad : classifyOutput rr.output = .badFormat)
    (hretry : ∀ k, ∃ r2, env2.checks k = .reply r2 ∧
      r2.status = some "succeeded" ∧
      ∃ u, classifyOutput r2.output = .url u ∧ env2.fetch u = .error ()) :
    (pollJob checks jobId).1 = .noVideo ∧
    (rPoll env pid).1 = .rMalformed ∧
    (rPoll env2 pid2).1 = .rTimedOut pid2 := by
  refine ⟨?_, ?_, ?_⟩
  · rw [pollJob, pollAux, dif_pos (by decide), h0]
    simp [if_pos hs, if_neg hnf, hv]
  · rw [rPoll, rPollAux, dif_pos (by decide), h0r]
    simp [if_pos hsr, hbad]
  · refine rPollAux_allRetry env2 pid2 ?_ repTimeout 0 0 0 (by omega)
    intro k
    obtain ⟨r2, h1, h2, u, h3, h4⟩ := hretry k
    exact Or.inr (Or.inl ⟨r2, h1, h2, Or.inr ⟨u, h3, h4⟩⟩)

/-- C6 amended claim at concrete inputs: a RunPod completion with no
video, a Replicate success with null output, and a Replicate success
with an empty-string output. -/
theorem c6_amended_malformed_output_witness :
    (pollJob checksNoVideo "job-2").1 = .noVideo ∧
    (rPoll repEnvNull "p-2").1 = .rMalformed ∧
    (rPoll repEnvEmptyStr "p-2").1 = .rTimedOut "p-2" := by
  exact c6_amended_malformed_output checksNoVideo "job-2"
    { status := some "COMPLETED", output := none, error := none }
    repEnvNull "p-2"
    { status := some "succeeded", output := .rnull, error := none }
    repEnvEmptyStr "p-2" rfl rfl (by decide) rfl rfl rfl rfl
    (fun _ => ⟨_, rfl, rfl, "", rfl, rfl⟩)

/-- Destroy requests in a concatenation of traces. -/
theorem destroyCount_append (a b : List VastEvent) :
    destroyCount (a ++ b) = destroyCount a + destroyCount b := by
  simp [destroyCount, List.countP_append]

/-- The readiness wait issues no destroy requests. -/
theorem destroyCount_replicate_getInstance (c : ℕ) :
    destroyCount (List.replicate c VastEvent.getInstance) = 0 := by
  induction c with
  | zero => rfl
  | succ c ih =>
    rw [List.replicate_succ]
    simp only [destroyCount, List.countP_cons] at ih ⊢
    simp [ih]

/-- The offer-search loop issues no destroy requests. -/
theorem destroyCount_tryGpus (env : VastEnv) :
    ∀ l : List String, destroyCount (tryGpus env l).2 = 0 := by
  intro l
  induction l with
  | nil => rfl
  | cons g rest ih =>
    rw [tryGpus]
    cases hso : searchOffers env (buildQuery g 24 1 3) with
    | error e =>
      simp only [destroyCount, List.countP_cons] at ih ⊢
      simp [ih]
    | ok lres =>
      by_cases he : lres.isEmpty
      · simp only [he, if_true]
        simp only [destroyCount, List.countP_cons] at ih ⊢
        simp [ih]
      · simp only [he, if_false]
        rfl

/-- Truthiness of a present nonzero id. -/
theorem truthyNat_some (i : ℕ) (hi : i ≠ 0) : truthyNat (some i) = true := by
  simp [truthyNat, hi]

/-- Behaviour of the provisioning body once an instance was created with
a truthy id: the `instance_id` variable holds it at exit, the body never
issues a destroy request itself, and if the readiness wait broke out
with SSH coordinates the body ends in the `NotImplementedError` raise. -/
theorem vastBody_spec (env : VastEnv) (i : ℕ) (best : Offer)
    (rest : List Offer) (tr : List VastEvent)
    (htry : tryGpus env gpuPreference = (best :: rest, tr))
    (hc : env.createResult = .ok (some i)) (hi : i ≠ 0) :
    (vastBody env).2.1 = some i ∧
    destroyCount (vastBody env).2.2 = 0 ∧
    (∀ host port c, readiness env 0 0 none none = (.broke host port, c) →
      (vastBody env).1 = .notImplemented) := by
  have htr0 : destroyCount tr = 0 := by
    have h := destroyCount_tryGpus env gpuPreference
    rw [htry] at h
    exact h
  simp only [vastBody, htry, hc, truthyNat_some i hi, if_true]
  rcases hres : readiness env 0 0 none none with ⟨res, c⟩
  have hcount : destroyCount
      (tr ++ [VastEvent.create best.id] ++ List.replicate c VastEvent.getInstance)
      = 0 := by
    rw [destroyCount_append, destroyCount_append, htr0,
      destroyCount_replicate_getInstance]
    rfl
  cases res with
  | broke host port => exact ⟨rfl, hcount, fun _ _ _ _ => rfl⟩
  | ended hA pA =>
    by_cases hh : truthyStr hA = true
    · simp only [if_pos hh]
      exact ⟨trivial, hcount, fun _ _ _ hbr => by simp at hbr⟩
    · simp only [if_neg hh]
      exact ⟨trivial, hcount, fun _ _ _ hbr => by simp at hbr⟩
  | errored =>
    refine ⟨rfl, hcount, ?_⟩
    intro h2 p2 c2 hbr
    simp at hbr

/-- When configured, the wrapper's outcome is the body's outcome. -/
theorem vastGen_fst (env : VastEnv) (key : Option String)
    (hk : truthyStr key = true) :
    (vastGenerateVideo env key).1 = (vastBody env).1 := by
  rcases hb : vastBody env with ⟨out, iid, tr⟩
  simp only [vastGenerateVideo, vastIsConfigured, hk, if_true, hb]
  by_cases ht : truthyNat iid <;> simp [ht]

/-- When configured and the body exits holding a truthy instance id, the
`finally` block issues exactly one destroy request, on that instance. -/
theorem vastGen_destroy (env : VastEnv) (key : Option String) (i : ℕ)
    (hk : truthyStr key = true) (hi : i ≠ 0)
    (hiid : (vastBody env).2.1 = some i)
    (hzero : destroyCount (vastBody env).2.2 = 0) :
    destroyCount (vastGenerateVideo env key).2 = 1 ∧
    VastEvent.destroy i ∈ (vastGenerateVideo env key).2 := by
  rcases hb : vastBody env with ⟨out, iid, tr⟩
  rw [hb] at hiid hzero
  simp only at hiid hzero
  simp only [vastGenerateVideo, vastIsConfigured, hk, if_true, hb, hiid,
    truthyNat_some i hi, if_true]
  constructor
  · rw [destroyCount_append, hzero]
    rfl
  · simp

/-- C2: in every marketplace run in which instance creation succeeds and
returns a (truthy) instance id, exactly one destroy request is issued,
on that instance, whether the readiness wait or the generation step
succeeds or fails — the `finally` block always runs and nothing else
destroys instances. -/
theorem c2_destroy_exactly_once (env : VastEnv) (key : Option String) (i : ℕ)
    (hk : truthyStr key = true)
    (hoffers : (tryGpus env gpuPreference).1 ≠ [])
    (hc : env.createResult = .ok (some i)) (hi : i ≠ 0) :
    destroyCount (vastGenerateVideo env key).2 = 1 ∧
    VastEvent.destroy i ∈ (vastGenerateVideo env key).2 := by
  rcases htry : tryGpus env gpuPreference with ⟨offers, tr⟩
  cases offers with
  | nil => rw [htry] at hoffers; exact absurd rfl hoffers
  | cons best rest =>
    have hb := vastBody_spec env i best rest tr htry hc hi
    exact vastGen_destroy env key i hk hi hb.1 hb.2.1

/-- C2 at a concrete input: creation succeeds with id 5 and the
readiness wait raises immediately; the instance is still destroyed
exactly once. -/
theorem c2_destroy_exactly_once_witness :
    destroyCount (vastGenerateVideo vastEnvW (some "key")).2 = 1 ∧
    VastEvent.destroy 5 ∈ (vastGenerateVideo vastEnvW (some "key")).2 := by
  refine c2_destroy_exactly_once vastEnvW (some "key") 5 rfl ?_ rfl (by decide)
  have hsort : sortTake [offerW] = [offerW] := by
    simp [sortTake, List.mergeSort]
  have hso : searchOffers vastEnvW (buildQuery "A100_PCIE" 24 1 3)
      = .ok [offerW] := by
    simp [searchOffers, vastEnvW, Except.map, hsort]
  have htry : tryGpus vastEnvW gpuPreference
      = ([offerW], [.search (buildQuery "A100_PCIE" 24 1 3)]) := by
    simp only [gpuPreference, tryGpus, hso]
    simp
  rw [htry]
  simp

/-- Boolean price comparison agrees with the order on sort keys. -/
theorem offerLe_iff (a b : Offer) :
    offerLe a b = true ↔ offerKey a ≤ offerKey b := by
  rcases a with ⟨ia, da, ga⟩
  rcases b with ⟨ib, db2, gb⟩
  rcases da with _ | qa <;> rcases db2 with _ | qb <;>
    simp [offerLe, offerKey, top_le_iff, le_top, WithTop.coe_ne_top,
      WithTop.coe_le_coe, decide_eq_true_eq]

/-- Transitivity of the price comparison. -/
theorem offerLe_trans (a b c : Offer) (h1 : offerLe a b = true)
    (h2 : offerLe b c = true) : offerLe a c = true :=
  (offerLe_iff a c).mpr
    (le_trans ((offerLe_iff a b).mp h1) ((offerLe_iff b c).mp h2))

/-- Totality of the price comparison. -/
theorem offerLe_total (a b : Offer) : (offerLe a b || offerLe b a) = true := by
  rcases le_total (offerKey a) (offerKey b) with h | h
  · simp [(offerLe_iff a b).mpr h]
  · simp [(offerLe_iff b a).mpr h]

/-- Offers returned by `search_offers` are sorted by ascending price. -/
theorem sortTake_sorted (raw : List Offer) :
    (sortTake raw).Pairwise fun a b => offerKey a ≤ offerKey b := by
  have hs := List.sorted_mergeSort offerLe_trans offerLe_total raw
  have hp : (raw.mergeSort offerLe).Pairwise fun a b => offerKey a ≤ offerKey b :=
    hs.imp fun h => (offerLe_iff _ _).mp h
  exact List.Pairwise.sublist (List.take_sublist 10 _) hp

/-- At most 10 offers are returned by `search_offers`. -/
theorem sortTake_length (raw : List Offer) : (sortTake raw).length ≤ 10 :=
  List.length_take_le 10 _

/-- Head of an ascending list is minimal. -/
theorem sorted_head_min (best : Offer) (rest : List Offer)
    (h : (best :: rest).Pairwise fun a b => offerKey a ≤ offerKey b) :
    ∀ o ∈ best :: rest, offerKey best ≤ offerKey o := by
  intro o ho
  rcases List.mem_cons.mp ho with h1 | h1
  · rw [h1]
  · exact (List.pairwise_cons.mp h).1 o h1

/-- The candidate list produced by the offer-search loop is either empty
or the sorted-truncated offer list returned by the `bundles` endpoint for
one of the tried queries. -/
theorem tryGpus_eq_sortTake (env : VastEnv) :
    ∀ l : List String, (tryGpus env l).1 = [] ∨
      ∃ g raw, g ∈ l ∧ env.offersFor (buildQuery g 24 1 3) = .ok raw ∧
        (tryGpus env l).1 = sortTake raw := by
  intro l
  induction l with
  | nil => exact Or.inl rfl
  | cons g rest ih =>
    simp only [tryGpus]
    cases hso : searchOffers env (buildQuery g 24 1 3) with
    | error e =>
      rcases ih with h | ⟨g2, raw, hm, hok, heq⟩
      · exact Or.inl h
      · exact Or.inr ⟨g2, raw, List.mem_cons_of_mem g hm, hok, heq⟩
    | ok lres =>
      by_cases he : lres.isEmpty
      · simp only [he, if_true]
        rcases ih with h | ⟨g2, raw, hm, hok, heq⟩
        · exact Or.inl h
        · exact Or.inr ⟨g2, raw, List.mem_cons_of_mem g hm, hok, heq⟩
      · simp only [he, if_false]
        rw [searchOffers] at hso
        cases hof : env.offersFor (buildQuery g 24 1 3) with
        | error e2 => rw [hof] at hso; exact absurd hso (by simp [Except.map])
        | ok raw =>
          rw [hof] at hso
          have : sortTake raw = lres := by
            simpa [Except.map] using hso
          exact Or.inr ⟨g, raw, List.mem_cons_self g rest, hof, by simp [this]⟩

/-- Whenever the search phase yields candidates, the body issues the
create request on the head candidate's offer id. -/
theorem create_mem_vastBody (env : VastEnv) (best : Offer) (rest : List Offer)
    (tr : List VastEvent) (h : tryGpus env gpuPreference = (best :: rest, tr)) :
    VastEvent.create best.id ∈ (vastBody env).2.2 := by
  simp only [vastBody, h]
  cases hc : env.createResult with
  | error e => simp
  | ok idOpt =>
    by_cases ht : truthyNat idOpt = true
    · simp only [ht, if_true]
      rcases hres : readiness env 0 0 none none with ⟨res, c⟩
      cases res with
      | broke host port => simp
      | errored => simp
      | ended hA pA =>
        by_cases hh : truthyStr hA = true
        · simp only [if_pos hh]; simp
        · simp only [if_neg hh]; simp
    · simp only [ht, if_false]
      simp

/-- C7: the marketplace query requests verified, rentable hosts with
reliability at least 0.9, CUDA at least 12, download bandwidth at least
100, the GPU-memory (MB) and price-per-hour thresholds, and the GPU name
when given; `search_offers` returns at most 10 offers sorted by
ascending price; and when the search phase yields candidates,
`generate_video` creates the instance from the head candidate, whose
price is minimal among the candidates. -/
theorem c7_search_and_pick_cheapest (g : String) (ram ngpu : ℕ) (price : ℚ)
    (raw : List Offer) (env : VastEnv) (best : Offer) (rest : List Offer)
    (tr : List VastEvent)
    (htry : tryGpus env gpuPreference = (best :: rest, tr)) :
    (buildQuery g ram ngpu price).verified_eq = true ∧
    (buildQuery g ram ngpu price).rentable_eq = true ∧
    (buildQuery g ram ngpu price).reliability2_gte = 9 / 10 ∧
    (buildQuery g ram ngpu price).cuda_vers_gte = 12 ∧
    (buildQuery g ram ngpu price).inet_down_gte = 100 ∧
    (buildQuery g ram ngpu price).gpu_ram_mb_gte = ram * 1024 ∧
    (buildQuery g ram ngpu price).dph_total_lte = price ∧
    (buildQuery g ram ngpu price).num_gpus_gte = ngpu ∧
    (sortTake raw).length ≤ 10 ∧
    ((sortTake raw).Pairwise fun a b => offerKey a ≤ offerKey b) ∧
    (∀ o ∈ best :: rest, offerKey best ≤ offerKey o) ∧
    VastEvent.create best.id ∈ (vastBody env).2.2 := by
  refine ⟨rfl, rfl, rfl, rfl, rfl, rfl, rfl, rfl, sortTake_length raw,
    sortTake_sorted raw, ?_, create_mem_vastBody env best rest tr htry⟩
  rcases tryGpus_eq_sortTake env gpuPreference with h1 | ⟨g2, raw2, _, _, h2⟩
  · rw [htry] at h1
    exact absurd h1 (by simp)
  · rw [htry] at h2
    have hp := sortTake_sorted raw2
    rw [← h2] at hp
    exact sorted_head_min best rest hp

/-- C7 at a concrete input: a single returned offer is its own cheapest
candidate and its id is the one the create request uses. -/
theorem c7_search_and_pick_cheapest_witness :
    (buildQuery "RTX_4090" 24 1 (3 : ℚ)).reliability2_gte = 9 / 10 ∧
    (∀ o ∈ [offerW], offerKey offerW ≤ offerKey o) ∧
    VastEvent.create offerW.id ∈ (vastBody vastEnvW).2.2 := by
  have hsort : sortTake [offerW] = [offerW] := by
    simp [sortTake, List.mergeSort]
  have hso : searchOffers vastEnvW (buildQuery "A100_PCIE" 24 1 3)
      = .ok [offerW] := by
    simp [searchOffers, vastEnvW, Except.map, hsort]
  have htry : tryGpus vastEnvW gpuPreference
      = ([offerW], [.search (buildQuery "A100_PCIE" 24 1 3)]) := by
    simp only [gpuPreference, tryGpus, hso]
    simp
  have h := c7_search_and_pick_cheapest "RTX_4090" 24 1 3 [] vastEnvW offerW []
    [.search (buildQuery "A100_PCIE" 24 1 3)] htry
  exact ⟨h.2.2.1, h.2.2.2.2.2.2.2.2.2.2.1, h.2.2.2.2.2.2.2.2.2.2.2⟩

/-- C9 counterexample: with valid configuration but an offer search that
finds nothing, the marketplace `generate_video` fails with the no-offers
`ValueError`, not with `NotImplementedError` — and it only reaches the
`NotImplementedError` after searching, creating an instance and waiting
for readiness, so the failure is neither unconditional nor immediate. -/
theorem c9_counterexample :
    (vastGenerateVideo vastEnvEmpty (some "key")).1 = VastExit.noOffers ∧
    (vastGenerateVideo vastEnvEmpty (some "key")).1 ≠ VastExit.notImplemented := by
  have hsort : sortTake ([] : List Offer) = [] := by simp [sortTake]
  have hso : ∀ q, searchOffers vastEnvEmpty q = .ok [] := by
    intro q
    simp [searchOffers, vastEnvEmpty, Except.map, hsort]
  have htry : (tryGpus vastEnvEmpty gpuPreference).1 = [] := by
    simp [gpuPreference, tryGpus, hso]
  have h1 : (vastGenerateVideo vastEnvEmpty (some "key")).1 = VastExit.noOffers := by
    rcases h2 : tryGpus vastEnvEmpty gpuPreference with ⟨offers, tr⟩
    rw [h2] at htry
    have ho : offers = [] := htry
    subst ho
    simp only [vastGenerateVideo, vastIsConfigured, vastBody, h2]
    simp [truthyStr, truthyNat]
  exact ⟨h1, by rw [h1]; decide⟩

/-- C9 (amended): the generation step itself never silently degrades —
whenever provisioning succeeds (candidates found, instance created with
a truthy id, readiness wait broke out with SSH coordinates), the run
fails with `NotImplementedError`; but this happens only after the
search, create and readiness phases, and the instance is destroyed in
the cleanup step. -/
theorem c9_amended_fails_after_provisioning (env : VastEnv)
    (key : Option String) (i : ℕ) (host : String) (port c : ℕ)
    (hk : truthyStr key = true)
    (hoffers : (tryGpus env gpuPreference).1 ≠ [])
    (hc : env.createResult = .ok (some i)) (hi : i ≠ 0)
    (hr : readiness env 0 0 none none = (.broke host port, c)) :
    (vastGenerateVideo env key).1 = VastExit.notImplemented ∧
    destroyCount (vastGenerateVideo env key).2 = 1 := by
  rcases htry : tryGpus env gpuPreference with ⟨offers, tr⟩
  cases offers with
  | nil => rw [htry] at hoffers; exact absurd rfl hoffers
  | cons best rest =>
    have hb := vastBody_spec env i best rest tr htry hc hi
    constructor
    · rw [vastGen_fst env key hk]
      exact hb.2.2 host port c hr
    · exact (vastGen_destroy env key i hk hi hb.1 hb.2.1).1

/-- C9 amended claim at a concrete input: provisioning succeeds and the
instance is immediately running. -/
theorem c9_amended_fails_after_provisioning_witness :
    (vastGenerateVideo vastEnvReady (some "key")).1 = VastExit.notImplemented ∧
    destroyCount (vastGenerateVideo vastEnvReady (some "key")).2 = 1 := by
  have hsort : sortTake [offerW] = [offerW] := by
    simp [sortTake, List.mergeSort]
  have hso : searchOffers vastEnvReady (buildQuery "A100_PCIE" 24 1 3)
      = .ok [offerW] := by
    simp [searchOffers, vastEnvReady, Except.map, hsort]
  have htry : (tryGpus vastEnvReady gpuPreference).1 ≠ [] := by
    simp only [gpuPreference, tryGpus, hso]
    simp
  have hready : readiness vastEnvReady 0 0 none none = (.broke "h" 22, 1) := by
    rw [readiness]
    simp [vastEnvReady, truthyStr, truthyNat]
  exact c9_amended_fails_after_provisioning vastEnvReady (some "key") 5 "h" 22 1
    rfl htry rfl (by decide) hready

/-- C8: for each of the three backend services, `is_configured` is a
pure function of the present credentials — true exactly when the
provider's required credentials are truthy — and an unconfigured
`generate_video` fails with the not-configured error having made zero
network requests. -/
theorem c8_not_configured_fails_before_network (c : GpuCreds)
    (t vk : Option String) (genv : GpuSubmitEnv) (renv : RepSubmitEnv)
    (venv : VastEnv) :
    gpuIsConfigured c
        = (truthyStr c.runpod_api_key && truthyStr c.runpod_endpoint_id) ∧
    repIsConfigured t = truthyStr t ∧
    vastIsConfigured vk = truthyStr vk ∧
    (gpuIsConfigured c = false →
      gpuGenerateVideo genv c = (.notConfigured, 0)) ∧
    (repIsConfigured t = false →
      repGenerateVideo renv t = (.notConfigured, 0)) ∧
    (vastIsConfigured vk = false →
      vastGenerateVideo venv vk = (.notConfigured, [])) := by
  refine ⟨rfl, rfl, rfl, ?_, ?_, ?_⟩
  · intro h
    simp [gpuGenerateVideo, h]
  · intro h
    simp [repGenerateVideo, h]
  · intro h
    simp [vastGenerateVideo, h]

/-- C8 at concrete inputs: missing RunPod endpoint id, empty Replicate
token, missing Vast.ai key. -/
theorem c8_not_configured_fails_before_network_witness :
    gpuGenerateVideo ⟨Except.error (), checksNet⟩ ⟨some "k", none⟩
        = (.notConfigured, 0) ∧
    repGenerateVideo ⟨Except.error (), repEnvNet⟩ (some "")
        = (.notConfigured, 0) ∧
    vastGenerateVideo vastEnvEmpty none = (.notConfigured, []) := by
  have h := c8_not_configured_fails_before_network ⟨some "k", none⟩ (some "")
    none ⟨Except.error (), checksNet⟩ ⟨Except.error (), repEnvNet⟩ vastEnvEmpty
  exact ⟨h.2.2.2.1 rfl, h.2.2.2.2.1 rfl, h.2.2.2.2.2 rfl⟩

end UGC
